import Mathlib

/-!
Shallow embedding of the protein-tracker service (src/main.py, src/schemas.py).

Numeric fields (`protein_per_unit`, `quantity`, `protein_total`), which the
Python code holds as floats, are modelled as exact rationals; Python arithmetic
on them is modelled as the corresponding exact rational arithmetic.

The storage layer (`database.py`, imported by `main.py` but not part of the
sources) is modelled from the spec: it exposes insert and filtered-find over
two document collections and assigns each inserted document a fresh opaque
identifier (a zero-padded lowercase hexadecimal token, matching the spec's
"24-character hex-like tokens").
-/

/- ## Characters, digits and hexadecimal identifiers -/

/-- Value of a decimal digit character, as in `int(c)` for `'0'-'9'`. -/
def digitVal (c : Char) : Nat := c.toNat - 48

/-- Decimal digit character for a value below 10, as produced by `"%d"`. -/
def digitChar (n : Nat) : Char := Char.ofNat (48 + n)

/-- Lowercase hexadecimal digit character for a value below 16. -/
def hexDigitChar (n : Nat) : Char := if n < 10 then Char.ofNat (48 + n) else Char.ofNat (87 + n)

/-- Big-endian lowercase hexadecimal digits of `n`, with explicit fuel
(the fuel `n + 1` used below always suffices). -/
def hexCharsAux : Nat → Nat → List Char
  | 0, _ => []
  | f + 1, n => if n < 16 then [hexDigitChar n] else hexCharsAux f (n / 16) ++ [hexDigitChar (n % 16)]

/-- Left-pad a character list with `'0'` to length 24. -/
def pad24 (l : List Char) : List Char := List.replicate (24 - l.length) '0' ++ l

/-- Modelled from the spec: the opaque identifier the storage layer assigns to
the `k`-th inserted document — the zero-padded lowercase hexadecimal form of
the insertion counter (spec §6: "24-character hex-like tokens"). -/
def genId (n : Nat) : String := ⟨pad24 (hexCharsAux (n + 1) n)⟩

/-- Character is a hexadecimal digit (either case), as accepted by
`bson.ObjectId` on a 24-character string. -/
def isHexChar (c : Char) : Bool := c.isDigit || ('a' ≤ c && c ≤ 'f') || ('A' ≤ c && c ≤ 'F')

/-- Lowercase a hexadecimal digit character. -/
def hexLower (c : Char) : Char := if 'A' ≤ c && c ≤ 'F' then Char.ofNat (c.toNat + 32) else c

/-- Model of `oid` (main.py lines 62-71) at the value level: `ObjectId(id_str)`
succeeds exactly on 24-character hexadecimal strings, and two such strings
denote the same `ObjectId` iff they agree up to case, which we model by
normalising to lowercase. Returns `none` where `oid` raises the 400 error. -/
def oidParse (s : String) : Option String :=
  if s.data.length = 24 && s.data.all isHexChar then some ⟨s.data.map hexLower⟩ else none

/- ## Calendar dates (`datetime.date`) -/

/-- Gregorian leap-year rule used by `datetime`. -/
def isLeapYear (y : Nat) : Bool := (y % 4 == 0 && y % 100 != 0) || y % 400 == 0

/-- Number of days in a month, as enforced by the `datetime.date` constructor. -/
def daysInMonth (y m : Nat) : Nat :=
  if m == 2 then (if isLeapYear y then 29 else 28)
  else if m == 4 || m == 6 || m == 9 || m == 11 then 30 else 31

/-- Model of a Python `datetime.date` value. -/
structure PyDate where
  year : Nat
  month : Nat
  day : Nat
deriving DecidableEq

/-- Range constraints enforced by the `datetime.date` constructor
(`MINYEAR = 1`, `MAXYEAR = 9999`). -/
def PyDate.isValid (d : PyDate) : Bool :=
  1 ≤ d.year && d.year ≤ 9999 && 1 ≤ d.month && d.month ≤ 12 && 1 ≤ d.day && d.day ≤ daysInMonth d.year d.month

/-- Four zero-padded decimal digit characters of `n`, as in `"%04d"` (for `n ≤ 9999`). -/
def pad4 (n : Nat) : List Char :=
  [digitChar (n / 1000 % 10), digitChar (n / 100 % 10), digitChar (n / 10 % 10), digitChar (n % 10)]

/-- Two zero-padded decimal digit characters of `n`, as in `"%02d"` (for `n ≤ 99`). -/
def pad2 (n : Nat) : List Char := [digitChar (n / 10 % 10), digitChar (n % 10)]

/-- Model of `date.isoformat()`: the `YYYY-MM-DD` string of the date. -/
def PyDate.isoformat (d : PyDate) : String :=
  ⟨pad4 d.year ++ '-' :: (pad2 d.month ++ '-' :: pad2 d.day)⟩

/-- Model of `date.fromisoformat`: accepts exactly `YYYY-MM-DD` strings naming
a valid calendar date, returning `none` where Python raises `ValueError`. -/
def parseIsoDate (s : String) : Option PyDate :=
  match s.data with
  | [y1, y2, y3, y4, h1, m1, m2, h2, d1, d2] =>
    if h1 = '-' && h2 = '-' && y1.isDigit && y2.isDigit && y3.isDigit && y4.isDigit
        && m1.isDigit && m2.isDigit && d1.isDigit && d2.isDigit then
      let d : PyDate :=
        ⟨1000 * digitVal y1 + 100 * digitVal y2 + 10 * digitVal y3 + digitVal y4,
         10 * digitVal m1 + digitVal m2,
         10 * digitVal d1 + digitVal d2⟩
      if d.isValid then some d else none
    else none
  | _ => none

/- ## Stored documents and database state -/

/-- Stored document of the `item` collection. -/
structure ItemDoc where
  id : String
  name : String
  unit : String
  protein_per_unit : ℚ

/-- Stored document of the `consumption` collection (the denormalized snapshot
written by `create_consumption`). -/
structure ConsumptionDoc where
  id : String
  date : String
  item_id : String
  item_name : String
  unit : String
  quantity : ℚ
  protein_per_unit : ℚ
  protein_total : ℚ

/-- Modelled from the spec: state of the document store — the two collections
(in insertion order, the storage-layer default order) and the insertion
counter from which fresh identifiers are drawn. -/
structure DB where
  items : List ItemDoc
  consumptions : List ConsumptionDoc
  nextId : Nat

/-- Empty database. -/
def DB.empty : DB := ⟨[], [], 0⟩

/-- Modelled from the spec: `create_document("item", ...)` — insert a record
into the `item` collection, assigning a fresh identifier; returns the new
identifier and the new state. -/
def insertItem (s : DB) (name unit : String) (ppu : ℚ) : String × DB :=
  (genId s.nextId,
   { s with items := s.items ++ [⟨genId s.nextId, name, unit, ppu⟩], nextId := s.nextId + 1 })

/-- Modelled from the spec: `create_document("consumption", payload)` — insert
a record into the `consumption` collection, assigning a fresh identifier. -/
def insertConsumption (s : DB) (p : ConsumptionDoc) : String × DB :=
  (genId s.nextId,
   { s with consumptions := s.consumptions ++ [{ p with id := genId s.nextId }],
            nextId := s.nextId + 1 })

/-- Modelled from the spec: `db["item"].find_one({"_id": ...})`. -/
def findItemById (s : DB) (i : String) : Option ItemDoc := s.items.find? (fun d => d.id == i)

/-- Modelled from the spec: `db["item"].find_one({"name": ...})`. -/
def findItemByName (s : DB) (n : String) : Option ItemDoc := s.items.find? (fun d => d.name == n)

/-- Modelled from the spec: `db["consumption"].find_one({"_id": ...})`. -/
def findConsumptionById (s : DB) (i : String) : Option ConsumptionDoc :=
  s.consumptions.find? (fun d => d.id == i)

/-- Modelled from the spec: `get_documents("consumption", {"date": date_str})` —
all consumption records whose stored `date` field exactly equals the string. -/
def findConsumptionsByDate (s : DB) (ds : String) : List ConsumptionDoc :=
  s.consumptions.filter (fun d => d.date == ds)

/- ## Request and response schemas (schemas.py) -/

/-- Input schema `Item` (schemas.py lines 17-21). -/
structure Item where
  name : String
  unit : String
  protein_per_unit : ℚ

/-- Pydantic validation of `Item`: the only constraint beyond field types is
`protein_per_unit : gt=0`; `name` and `unit` are bare `str` fields. -/
def Item.schemaValid (i : Item) : Bool := decide (0 < i.protein_per_unit)

/-- Input schema `Consumption` (schemas.py lines 24-28). -/
structure Consumption where
  date : PyDate
  item_id : String
  quantity : ℚ

/-- Pydantic validation of `Consumption`: `date` must parse as a calendar date
and `quantity : gt=0`; `item_id` is a bare `str` field. -/
def Consumption.schemaValid (e : Consumption) : Bool :=
  e.date.isValid && decide (0 < e.quantity)

/-- Response model `ItemOut`. -/
structure ItemOut where
  id : String
  name : String
  unit : String
  protein_per_unit : ℚ

/-- Response model `ConsumptionOut`. -/
structure ConsumptionOut where
  id : String
  date : PyDate
  item_id : String
  item_name : String
  unit : String
  quantity : ℚ
  protein_per_unit : ℚ
  protein_total : ℚ

/-- Failure outcomes of a handler: `validation` is the FastAPI/pydantic
request-validation rejection (HTTP 422, raised before the handler body runs);
`httpError` is an explicit `HTTPException(status_code, detail)`. -/
inductive ApiError where
  | validation (detail : String)
  | httpError (status : Nat) (detail : String)
deriving DecidableEq

/-- Shape of the `list_consumptions` response object. -/
structure ConsumptionListOut where
  date : String
  entries : List ConsumptionOut
  total_protein : ℚ

/- ## Serialization helpers (main.py) -/

/-- Model of `serialize_item` (main.py lines 74-80). -/
def serialize_item (d : ItemDoc) : ItemOut := ⟨d.id, d.name, d.unit, d.protein_per_unit⟩

/-- Construction of a `ConsumptionOut` from a stored document, including the
`date.fromisoformat` call on the stored date string (main.py lines 124-133 and
148-157); `none` models the exception path when the stored string is not a
valid date. -/
def serialize_consumption (d : ConsumptionDoc) : Option ConsumptionOut :=
  match parseIsoDate d.date with
  | some pd => some ⟨d.id, pd, d.item_id, d.item_name, d.unit, d.quantity, d.protein_per_unit, d.protein_total⟩
  | none => none

/- ## Handlers (main.py) -/

/-- Model of `create_item` (main.py lines 84-92), including the pydantic
validation of the request body that runs before the handler. The result pairs
the response (or error) with the post-state of the store. -/
def create_item (s : DB) (item : Item) : Except ApiError ItemOut × DB :=
  if item.schemaValid then
    match findItemByName s item.name with
    | some _ => (Except.error (ApiError.httpError 400 "Item with this name already exists"), s)
    | none =>
      let r := insertItem s item.name item.unit item.protein_per_unit
      match findItemById r.2 r.1 with
      | some doc => (Except.ok (serialize_item doc), r.2)
      | none => (Except.error (ApiError.httpError 500 "Internal Server Error"), r.2)
  else (Except.error (ApiError.validation "Input should be greater than 0"), s)

/-- Model of `list_items` (main.py lines 95-98). -/
def list_items (s : DB) : List ItemOut := s.items.map serialize_item

/-- Model of `create_consumption` (main.py lines 102-133), including the
pydantic validation of the request body that runs before the handler. -/
def create_consumption (s : DB) (entry : Consumption) : Except ApiError ConsumptionOut × DB :=
  if entry.schemaValid then
    match oidParse entry.item_id with
    | none => (Except.error (ApiError.httpError 400 "Invalid ID format"), s)
    | some nid =>
      match findItemById s nid with
      | none => (Except.error (ApiError.httpError 404 "Item not found"), s)
      | some item_doc =>
        let r := insertConsumption s
          { id := "", date := entry.date.isoformat, item_id := entry.item_id,
            item_name := item_doc.name, unit := item_doc.unit,
            quantity := entry.quantity, protein_per_unit := item_doc.protein_per_unit,
            protein_total := item_doc.protein_per_unit * entry.quantity }
        match findConsumptionById r.2 r.1 with
        | some saved =>
          match serialize_consumption saved with
          | some co => (Except.ok co, r.2)
          | none => (Except.error (ApiError.httpError 500 "Internal Server Error"), r.2)
        | none => (Except.error (ApiError.httpError 500 "Internal Server Error"), r.2)
  else (Except.error (ApiError.validation "Invalid consumption payload"), s)

/-- Model of the accumulation loop of `list_consumptions` (main.py lines
147-159): builds the entry list in order while summing `protein_total`;
an entry whose stored date fails to re-parse aborts with the 500 path. -/
def consLoop : List ConsumptionOut × ℚ → List ConsumptionDoc → Except ApiError (List ConsumptionOut × ℚ)
  | acc, [] => Except.ok acc
  | acc, d :: rest =>
    match serialize_consumption d with
    | some co => consLoop (acc.1 ++ [co], acc.2 + co.protein_total) rest
    | none => Except.error (ApiError.httpError 500 "Internal Server Error")

/-- Model of Python `round(x, 2)` on the exact rational value. -/
def round2 (q : ℚ) : ℚ := (round (q * 100) : ℚ) / 100

/-- Model of `list_consumptions` (main.py lines 136-165). -/
def list_consumptions (s : DB) (date_str : String) : Except ApiError ConsumptionListOut :=
  match parseIsoDate date_str with
  | none => Except.error (ApiError.httpError 400 "Invalid date format. Use YYYY-MM-DD")
  | some _ =>
    match consLoop ([], 0) (findConsumptionsByDate s date_str) with
    | Except.ok acc => Except.ok ⟨date_str, acc.1, round2 acc.2⟩
    | Except.error e => Except.error e

/- ## Reachable states -/

/-- Database states reachable from the empty store by the four operations
(the two listing operations are pure reads and do not change the state). -/
inductive Reachable : DB → Prop where
  | empty : Reachable DB.empty
  | createItem (s : DB) (i : Item) : Reachable s → Reachable (create_item s i).2
  | createConsumption (s : DB) (e : Consumption) : Reachable s → Reachable (create_consumption s e).2

/-- Uniqueness invariant of §3: no two stored items share a name. -/
def ItemNamesUnique (s : DB) : Prop := s.items.Pairwise (fun a b => a.name ≠ b.name)

/-- Identifier bookkeeping: every stored document carries an identifier drawn
from the insertion counter's past values. -/
def IdsFresh (s : DB) : Prop :=
  (∀ d ∈ s.items, ∃ k, k < s.nextId ∧ d.id = genId k) ∧
  (∀ d ∈ s.consumptions, ∃ k, k < s.nextId ∧ d.id = genId k)

/- ## Properties of generated identifiers -/

/-- Value of a lowercase hexadecimal digit character. -/
def hexVal (c : Char) : Nat := if c.toNat < 97 then c.toNat - 48 else c.toNat - 87

/-- Big-endian hexadecimal decoding, folding from an accumulator. -/
def decodeFrom (acc : Nat) (l : List Char) : Nat := l.foldl (fun a c => 16 * a + hexVal c) acc

theorem hexVal_hexDigitChar {n : Nat} (h : n < 16) : hexVal (hexDigitChar n) = n := by
  interval_cases n <;> decide

theorem decodeFrom_append (acc : Nat) (l : List Char) (c : Char) :
    decodeFrom acc (l ++ [c]) = 16 * decodeFrom acc l + hexVal c := by
  simp [decodeFrom, List.foldl_append]

theorem hexVal_zero_char : hexVal '0' = 0 := by decide

theorem decodeFrom_replicate_zero (k : Nat) (l : List Char) :
    decodeFrom 0 (List.replicate k '0' ++ l) = decodeFrom 0 l := by
  induction k with
  | zero => rfl
  | succ n ih =>
      simpa [List.replicate_succ, decodeFrom, hexVal_zero_char] using ih

theorem decodeFrom_hexCharsAux : ∀ (f n : Nat), n < 16 ^ f → decodeFrom 0 (hexCharsAux f n) = n := by
  intro f
  induction f with
  | zero =>
      intro n h
      interval_cases n
      rfl
  | succ f ih =>
      intro n h
      by_cases hn : n < 16
      · simp [hexCharsAux, hn, decodeFrom, hexVal_hexDigitChar hn]
      · have hdiv : n / 16 < 16 ^ f := by
          have hlt : n < 16 ^ f * 16 := by
            calc n < 16 ^ (f + 1) := h
            _ = 16 ^ f * 16 := pow_succ 16 f
          exact (Nat.div_lt_iff_lt_mul (by norm_num)).2 hlt
        have hmod : n % 16 < 16 := Nat.mod_lt n (by norm_num)
        simp [hexCharsAux, hn, decodeFrom_append, ih _ hdiv, hexVal_hexDigitChar hmod]
        omega

theorem decodeFrom_genId (n : Nat) : decodeFrom 0 (genId n).data = n := by
  have hfuel : n < 16 ^ (n + 1) := by
    calc n < 2 ^ n := Nat.lt_two_pow n
    _ ≤ 16 ^ n := Nat.pow_le_pow_left (by norm_num) n
    _ ≤ 16 ^ (n + 1) := Nat.pow_le_pow_right (by norm_num) (Nat.le_succ n)
  show decodeFrom 0 (pad24 (hexCharsAux (n + 1) n)) = n
  rw [pad24, decodeFrom_replicate_zero, decodeFrom_hexCharsAux _ _ hfuel]

theorem genId_injective {a b : Nat} (h : genId a = genId b) : a = b := by
  have h2 := congrArg (fun s : String => decodeFrom 0 s.data) h
  simpa [decodeFrom_genId] using h2

theorem genId_ne_of_lt {k n : Nat} (h : k < n) : genId k ≠ genId n :=
  fun he => absurd (genId_injective he) (Nat.ne_of_lt h)

/- ## Round trip between isoformat and fromisoformat -/

theorem digitChar_isDigit {n : Nat} (h : n < 10) : (digitChar n).isDigit = true := by
  interval_cases n <;> decide

theorem digitVal_digitChar {n : Nat} (h : n < 10) : digitVal (digitChar n) = n := by
  interval_cases n <;> decide

theorem dec4_reassemble (y : Nat) (h : y ≤ 9999) :
    1000 * (y / 1000 % 10) + 100 * (y / 100 % 10) + 10 * (y / 10 % 10) + y % 10 = y := by
  omega

theorem dec2_reassemble (m : Nat) (h : m ≤ 99) : 10 * (m / 10 % 10) + m % 10 = m := by
  omega

theorem parse_isoformat (d : PyDate) (h : d.isValid = true) : parseIsoDate d.isoformat = some d := by
  obtain ⟨y, m, dd⟩ := d
  have hb := h
  simp only [PyDate.isValid, Bool.and_eq_true, decide_eq_true_eq] at hb
  obtain ⟨⟨⟨⟨⟨hy1, hy2⟩, hm1⟩, hm2⟩, hd1⟩, hd2⟩ := hb
  have h10 : ∀ k : Nat, k % 10 < 10 := fun k => Nat.mod_lt k (by norm_num)
  have hmle : m ≤ 99 := by
    have : daysInMonth y m ≤ 31 := by
      simp only [daysInMonth]
      split <;> (try split) <;> norm_num
    omega
  have hdle : dd ≤ 99 := by
    have : daysInMonth y m ≤ 31 := by
      simp only [daysInMonth]
      split <;> (try split) <;> norm_num
    omega
  simp only [PyDate.isoformat, pad4, pad2, parseIsoDate, List.cons_append, List.nil_append]
  simp only [digitChar_isDigit (h10 _), Bool.and_self, Bool.and_true, if_true,
    digitVal_digitChar (h10 _)]
  rw [dec4_reassemble y hy2, dec2_reassemble m hmle, dec2_reassemble dd hdle]
  simp [h]

/- ## Invariant machinery -/

/-- Combined safety invariant maintained by the operations. -/
def DbInv (s : DB) : Prop := ItemNamesUnique s ∧ IdsFresh s

theorem findItemByName_none {s : DB} {n : String} (h : findItemByName s n = none) :
    ∀ d ∈ s.items, d.name ≠ n := by
  intro d hd
  have h2 := List.find?_eq_none.1 h d hd
  simpa using h2

theorem findItemById_insert {s : DB} (hf : IdsFresh s) (n u : String) (p : ℚ) :
    findItemById (insertItem s n u p).2 (insertItem s n u p).1 =
      some ⟨genId s.nextId, n, u, p⟩ := by
  simp only [insertItem, findItemById]
  rw [List.find?_append]
  have h1 : s.items.find? (fun d => d.id == genId s.nextId) = none := by
    rw [List.find?_eq_none]
    intro d hd
    obtain ⟨k, hk, hid⟩ := hf.1 d hd
    simp only [hid, beq_iff_eq]
    exact genId_ne_of_lt hk
  rw [h1]
  simp

theorem findConsumptionById_insert {s : DB} (hf : IdsFresh s) (p : ConsumptionDoc) :
    findConsumptionById (insertConsumption s p).2 (insertConsumption s p).1 =
      some { p with id := genId s.nextId } := by
  simp only [insertConsumption, findConsumptionById]
  rw [List.find?_append]
  have h1 : s.consumptions.find? (fun d => d.id == genId s.nextId) = none := by
    rw [List.find?_eq_none]
    intro d hd
    obtain ⟨k, hk, hid⟩ := hf.2 d hd
    simp only [hid, beq_iff_eq]
    exact genId_ne_of_lt hk
  rw [h1]
  simp

theorem dbInv_empty : DbInv DB.empty := by
  refine ⟨List.Pairwise.nil, ?_, ?_⟩ <;> intro d hd <;> simp [DB.empty] at hd

theorem dbInv_insertItem {s : DB} (h : DbInv s) {n : String} (u : String) (p : ℚ)
    (hn : findItemByName s n = none) : DbInv (insertItem s n u p).2 := by
  obtain ⟨hu, hf1, hf2⟩ := h
  refine ⟨?_, ?_, ?_⟩
  · unfold ItemNamesUnique insertItem
    rw [List.pairwise_append]
    refine ⟨hu, List.pairwise_singleton _ _, ?_⟩
    intro a ha b hb
    simp only [List.mem_singleton] at hb
    subst hb
    exact findItemByName_none hn a ha
  · intro d hd
    simp only [insertItem, List.mem_append, List.mem_singleton] at hd
    cases hd with
    | inl hmem =>
        obtain ⟨k, hk, hid⟩ := hf1 d hmem
        exact ⟨k, Nat.lt_succ_of_lt hk, hid⟩
    | inr heq =>
        subst heq
        exact ⟨s.nextId, Nat.lt_succ_self _, rfl⟩
  · intro d hd
    simp only [insertItem] at hd ⊢
    obtain ⟨k, hk, hid⟩ := hf2 d hd
    exact ⟨k, Nat.lt_succ_of_lt hk, hid⟩

theorem dbInv_insertConsumption {s : DB} (h : DbInv s) (p : ConsumptionDoc) :
    DbInv (insertConsumption s p).2 := by
  obtain ⟨hu, hf1, hf2⟩ := h
  refine ⟨hu, ?_, ?_⟩
  · intro d hd
    simp only [insertConsumption] at hd
    obtain ⟨k, hk, hid⟩ := hf1 d hd
    exact ⟨k, Nat.lt_succ_of_lt hk, hid⟩
  · intro d hd
    simp only [insertConsumption, List.mem_append, List.mem_singleton] at hd
    cases hd with
    | inl hmem =>
        obtain ⟨k, hk, hid⟩ := hf2 d hmem
        exact ⟨k, Nat.lt_succ_of_lt hk, hid⟩
    | inr heq =>
        subst heq
        exact ⟨s.nextId, Nat.lt_succ_self _, rfl⟩

theorem dbInv_create_item (s : DB) (i : Item) (h : DbInv s) : DbInv (create_item s i).2 := by
  unfold create_item
  split
  · cases hfind : findItemByName s i.name with
    | some d => simp only [hfind]; exact h
    | none =>
        have h2 := dbInv_insertItem h i.unit i.protein_per_unit hfind
        simp only [hfind]
        split <;> exact h2
  · exact h

theorem dbInv_create_consumption (s : DB) (e : Consumption) (h : DbInv s) :
    DbInv (create_consumption s e).2 := by
  unfold create_consumption
  split
  · cases hoid : oidParse e.item_id with
    | none => simp only [hoid]; exact h
    | some nid =>
        simp only [hoid]
        cases hitem : findItemById s nid with
        | none => simp only [hitem]; exact h
        | some item_doc =>
            have h2 := dbInv_insertConsumption h
              { id := "", date := e.date.isoformat, item_id := e.item_id,
                item_name := item_doc.name, unit := item_doc.unit,
                quantity := e.quantity, protein_per_unit := item_doc.protein_per_unit,
                protein_total := item_doc.protein_per_unit * e.quantity }
            simp only [hitem]
            split
            · split <;> exact h2
            · exact h2
  · exact h

theorem reachable_dbInv {s : DB} (h : Reachable s) : DbInv s := by
  induction h with
  | empty => exact dbInv_empty
  | createItem s i _ ih => exact dbInv_create_item s i ih
  | createConsumption s e _ ih => exact dbInv_create_consumption s e ih

/- ## Outcome characterization of the create operations -/

theorem create_item_ok {s : DB} {i : Item} {out : ItemOut} {s' : DB}
    (hf : IdsFresh s) (hc : create_item s i = (Except.ok out, s')) :
    i.schemaValid = true ∧ findItemByName s i.name = none ∧
    s' = (insertItem s i.name i.unit i.protein_per_unit).2 ∧
    out = ⟨genId s.nextId, i.name, i.unit, i.protein_per_unit⟩ := by
  unfold create_item at hc
  split at hc
  · rename_i hv
    cases hfind : findItemByName s i.name with
    | some d => simp only [hfind] at hc; exact absurd hc (by simp)
    | none =>
        simp only [hfind, findItemById_insert hf i.name i.unit i.protein_per_unit,
          serialize_item] at hc
        simp only [Prod.mk.injEq, Except.ok.injEq] at hc
        obtain ⟨ho, hs⟩ := hc
        exact ⟨hv, rfl, hs.symm, ho.symm⟩
  · exact absurd hc (by simp)

theorem create_consumption_ok {s : DB} {e : Consumption} {out : ConsumptionOut} {s' : DB}
    (hf : IdsFresh s) (hc : create_consumption s e = (Except.ok out, s')) :
    ∃ nid item_doc,
      e.schemaValid = true ∧
      oidParse e.item_id = some nid ∧
      findItemById s nid = some item_doc ∧
      s'.consumptions = s.consumptions ++
        [⟨genId s.nextId, e.date.isoformat, e.item_id, item_doc.name, item_doc.unit,
          e.quantity, item_doc.protein_per_unit, item_doc.protein_per_unit * e.quantity⟩] ∧
      s'.items = s.items ∧
      out = ⟨genId s.nextId, e.date, e.item_id, item_doc.name, item_doc.unit,
             e.quantity, item_doc.protein_per_unit, item_doc.protein_per_unit * e.quantity⟩ := by
  unfold create_consumption at hc
  split at hc
  · rename_i hv
    cases hoid : oidParse e.item_id with
    | none => simp only [hoid] at hc; exact absurd hc (by simp)
    | some nid =>
      simp only [hoid] at hc
      cases hitem : findItemById s nid with
      | none => simp only [hitem] at hc; exact absurd hc (by simp)
      | some item_doc =>
        have hdv : e.date.isValid = true := by
          have h2 := hv
          simp only [Consumption.schemaValid, Bool.and_eq_true] at h2
          exact h2.1
        have hser : serialize_consumption
            ⟨genId s.nextId, e.date.isoformat, e.item_id, item_doc.name, item_doc.unit,
             e.quantity, item_doc.protein_per_unit, item_doc.protein_per_unit * e.quantity⟩ =
            some ⟨genId s.nextId, e.date, e.item_id, item_doc.name, item_doc.unit,
                  e.quantity, item_doc.protein_per_unit, item_doc.protein_per_unit * e.quantity⟩ := by
          unfold serialize_consumption
          rw [parse_isoformat e.date hdv]
        simp only [hitem, findConsumptionById_insert hf, hser] at hc
        simp only [Prod.mk.injEq, Except.ok.injEq] at hc
        obtain ⟨ho, hs⟩ := hc
        refine ⟨nid, item_doc, hv, rfl, hitem, ?_, ?_, ho.symm⟩
        · rw [← hs]; rfl
        · rw [← hs]; rfl
  · exact absurd hc (by simp)

/- ## Properties of the listing loop -/

theorem serialize_consumption_fields {d : ConsumptionDoc} {co : ConsumptionOut}
    (h : serialize_consumption d = some co) :
    co.id = d.id ∧ co.protein_total = d.protein_total := by
  unfold serialize_consumption at h
  cases hp : parseIsoDate d.date with
  | none => rw [hp] at h; exact absurd h (by simp)
  | some pd => rw [hp] at h; cases h; exact ⟨rfl, rfl⟩

theorem consLoop_ok (l : List ConsumptionDoc) :
    ∀ acc, (∀ d ∈ l, (serialize_consumption d).isSome) → ∃ r, consLoop acc l = Except.ok r := by
  induction l with
  | nil => intro acc _; exact ⟨acc, rfl⟩
  | cons d rest ih =>
      intro acc h
      obtain ⟨co, hco⟩ := Option.isSome_iff_exists.mp (h d (List.mem_cons_self d rest))
      simp only [consLoop, hco]
      exact ih _ (fun x hx => h x (List.mem_cons_of_mem d hx))

theorem consLoop_sum (l : List ConsumptionDoc) :
    ∀ a1 a2 es t, consLoop (a1, a2) l = Except.ok (es, t) →
      t - (es.map ConsumptionOut.protein_total).sum =
        a2 - (a1.map ConsumptionOut.protein_total).sum := by
  induction l with
  | nil =>
      intro a1 a2 es t h
      simp only [consLoop, Except.ok.injEq, Prod.mk.injEq] at h
      rw [← h.1, ← h.2]
  | cons d rest ih =>
      intro a1 a2 es t h
      cases hco : serialize_consumption d with
      | none => simp only [consLoop, hco] at h; exact absurd h (by simp)
      | some co =>
          simp only [consLoop, hco] at h
          have h2 := ih _ _ _ _ h
          rw [h2]
          simp only [List.map_append, List.sum_append, List.map_cons, List.map_nil,
            List.sum_cons, List.sum_nil]
          ring

theorem consLoop_ids (l : List ConsumptionDoc) :
    ∀ a1 a2 es t, consLoop (a1, a2) l = Except.ok (es, t) →
      es.map ConsumptionOut.id = a1.map ConsumptionOut.id ++ l.map ConsumptionDoc.id := by
  induction l with
  | nil =>
      intro a1 a2 es t h
      simp only [consLoop, Except.ok.injEq, Prod.mk.injEq] at h
      rw [← h.1]
      simp
  | cons d rest ih =>
      intro a1 a2 es t h
      cases hco : serialize_consumption d with
      | none => simp only [consLoop, hco] at h; exact absurd h (by simp)
      | some co =>
          simp only [consLoop, hco] at h
          have h2 := ih _ _ _ _ h
          rw [h2]
          simp [(serialize_consumption_fields hco).1]

theorem list_consumptions_spec (s : DB) (D : String) (pd : PyDate)
    (hp : parseIsoDate D = some pd) :
    ∃ res, list_consumptions s D = Except.ok res ∧
      res.date = D ∧
      res.total_protein = round2 ((res.entries.map ConsumptionOut.protein_total).sum) ∧
      res.entries.map ConsumptionOut.id = (findConsumptionsByDate s D).map ConsumptionDoc.id := by
  have hall : ∀ d ∈ findConsumptionsByDate s D, (serialize_consumption d).isSome := by
    intro d hd
    have hdd : d.date = D := by
      have h2 := (List.mem_filter.mp hd).2
      simpa using h2
    unfold serialize_consumption
    rw [hdd, hp]
    rfl
  obtain ⟨⟨es, t⟩, hr⟩ := consLoop_ok _ ([], 0) hall
  have hsum := consLoop_sum _ [] 0 es t hr
  have hids := consLoop_ids _ [] 0 es t hr
  have ht : t = (es.map ConsumptionOut.protein_total).sum := by
    simp only [List.map_nil, List.sum_nil, sub_zero] at hsum
    linarith [hsum]
  refine ⟨⟨D, es, round2 t⟩, ?_, rfl, ?_, ?_⟩
  · unfold list_consumptions
    simp only [hp, hr]
  · simp only [ht]
  · simpa using hids

/- ## Concrete fixtures used by witnesses and counterexamples -/

/-- Fixture: a valid item-creation request. -/
def itemReq : Item := ⟨"Chicken", "gm", 3⟩

/-- Fixture: the store after creating `itemReq` in the empty store. -/
def sChicken : DB := (create_item DB.empty itemReq).2

/-- Fixture: a consumption request referring to the item stored in `sChicken`. -/
def consReq : Consumption := ⟨⟨2024, 1, 15⟩, "000000000000000000000000", 2⟩

/-- Fixture: the response produced by creating `consReq` in `sChicken`. -/
def consOutExpected : ConsumptionOut :=
  ⟨"000000000000000000000001", ⟨2024, 1, 15⟩, "000000000000000000000000",
   "Chicken", "gm", 2, 3, 3 * 2⟩

/-- Fixture: the store after creating `consReq` in `sChicken`. -/
def sAfterCons : DB :=
  ⟨[⟨"000000000000000000000000", "Chicken", "gm", 3⟩],
   [⟨"000000000000000000000001", "2024-01-15", "000000000000000000000000",
     "Chicken", "gm", 2, 3, 3 * 2⟩], 2⟩

/-- Fixture: a store holding one item named "a". -/
def dbItemA : DB := ⟨[⟨"000000000000000000000000", "a", "g", 3⟩], [], 1⟩


/- ## Claim theorems -/

/-- C1: For every consumption-creation request whose item_id resolves to an
existing item, the record stored and returned by the create-consumption
operation has protein_total equal to the item's protein_per_unit multiplied by
the request's quantity, where protein_per_unit is the value read from the item
at creation time and also copied into the record along with item_name and
unit. -/
theorem C1_create_consumption_protein_total
    (s : DB) (e : Consumption) (out : ConsumptionOut) (s' : DB)
    (hr : Reachable s) (hc : create_consumption s e = (Except.ok out, s')) :
    ∃ nid item_doc, oidParse e.item_id = some nid ∧ findItemById s nid = some item_doc ∧
      out.protein_total = item_doc.protein_per_unit * e.quantity ∧
      out.protein_per_unit = item_doc.protein_per_unit ∧
      out.item_name = item_doc.name ∧
      out.unit = item_doc.unit ∧
      out.quantity = e.quantity ∧
      ∃ doc, s'.consumptions = s.consumptions ++ [doc] ∧
        doc.protein_total = item_doc.protein_per_unit * e.quantity ∧
        doc.protein_per_unit = item_doc.protein_per_unit ∧
        doc.item_name = item_doc.name ∧
        doc.unit = item_doc.unit ∧
        doc.quantity = e.quantity := by
  obtain ⟨nid, item_doc, hv, hoid, hitem, hcons, hitems, hout⟩ :=
    create_consumption_ok (reachable_dbInv hr).2 hc
  subst hout
  exact ⟨nid, item_doc, hoid, hitem, rfl, rfl, rfl, rfl, rfl,
    ⟨_, hcons, rfl, rfl, rfl, rfl, rfl⟩⟩

/-- Witness for C1 at a concrete creation: one item, one consumption. -/
theorem C1_witness :
    ∃ nid item_doc,
      oidParse consReq.item_id = some nid ∧ findItemById sChicken nid = some item_doc ∧
      consOutExpected.protein_total = item_doc.protein_per_unit * consReq.quantity ∧
      consOutExpected.protein_per_unit = item_doc.protein_per_unit ∧
      consOutExpected.item_name = item_doc.name ∧
      consOutExpected.unit = item_doc.unit ∧
      consOutExpected.quantity = consReq.quantity ∧
      ∃ doc, sAfterCons.consumptions = sChicken.consumptions ++ [doc] ∧
        doc.protein_total = item_doc.protein_per_unit * consReq.quantity ∧
        doc.protein_per_unit = item_doc.protein_per_unit ∧
        doc.item_name = item_doc.name ∧
        doc.unit = item_doc.unit ∧
        doc.quantity = consReq.quantity :=
  C1_create_consumption_protein_total sChicken consReq consOutExpected sAfterCons
    (Reachable.createItem DB.empty itemReq Reachable.empty) rfl

/-- C2: For every valid date string D, the list-consumptions operation returns
total_protein equal to the sum of protein_total over the returned entries,
rounded to 2 decimal places; in particular, when no stored consumption record
has date D it returns an empty entries list and total_protein = 0.0. -/
theorem C2_list_consumptions_total (s : DB) (D : String) (pd : PyDate)
    (hp : parseIsoDate D = some pd) :
    ∃ res, list_consumptions s D = Except.ok res ∧
      res.total_protein = round2 ((res.entries.map ConsumptionOut.protein_total).sum) ∧
      ((∀ d ∈ s.consumptions, d.date ≠ D) → res.entries = [] ∧ res.total_protein = 0) := by
  obtain ⟨res, hok, hdate, htot, hids⟩ := list_consumptions_spec s D pd hp
  refine ⟨res, hok, htot, ?_⟩
  intro hnone
  have hfil : findConsumptionsByDate s D = [] := by
    unfold findConsumptionsByDate
    rw [List.filter_eq_nil_iff]
    intro d hd
    simp [hnone d hd]
  have hids2 : res.entries.map ConsumptionOut.id = [] := by
    rw [hids, hfil]
    rfl
  have hent : res.entries = [] := by
    cases he : res.entries with
    | nil => rfl
    | cons a l => rw [he] at hids2; exact absurd hids2 (by simp)
  refine ⟨hent, ?_⟩
  rw [htot, hent]
  simp [round2]

/-- Witness for C2 at the empty store and a concrete valid date string. -/
theorem C2_witness :
    ∃ res, list_consumptions DB.empty "2024-01-15" = Except.ok res ∧
      res.total_protein = round2 ((res.entries.map ConsumptionOut.protein_total).sum) ∧
      ((∀ d ∈ DB.empty.consumptions, d.date ≠ "2024-01-15") →
        res.entries = [] ∧ res.total_protein = 0) :=
  C2_list_consumptions_total DB.empty "2024-01-15" ⟨2024, 1, 15⟩ (by decide)

/-- C3: For every consumption-creation request, if item_id is not a
syntactically valid identifier the operation fails with a 400 format error, and
if item_id is well-formed but does not resolve to an existing item it fails
with a 404 Not-Found error; in both failure cases no consumption record is
created (the state is returned unchanged). -/
theorem C3_create_consumption_bad_id (s : DB) (e : Consumption) (hv : e.schemaValid = true) :
    (oidParse e.item_id = none →
      create_consumption s e = (Except.error (ApiError.httpError 400 "Invalid ID format"), s)) ∧
    (∀ nid, oidParse e.item_id = some nid → findItemById s nid = none →
      create_consumption s e = (Except.error (ApiError.httpError 404 "Item not found"), s)) := by
  constructor
  · intro h
    unfold create_consumption
    simp [hv, h]
  · intro nid h hf
    unfold create_consumption
    simp [hv, h, hf]

/-- Witness for C3: a malformed identifier gives 400, and a well-formed but
unknown identifier gives 404, with the store unchanged in both cases. -/
theorem C3_witness :
    create_consumption DB.empty ⟨⟨2024, 1, 15⟩, "xyz", 2⟩ =
      (Except.error (ApiError.httpError 400 "Invalid ID format"), DB.empty) ∧
    create_consumption DB.empty ⟨⟨2024, 1, 15⟩, "000000000000000000000000", 2⟩ =
      (Except.error (ApiError.httpError 404 "Item not found"), DB.empty) :=
  ⟨(C3_create_consumption_bad_id DB.empty ⟨⟨2024, 1, 15⟩, "xyz", 2⟩ (by decide)).1 (by decide),
   (C3_create_consumption_bad_id DB.empty ⟨⟨2024, 1, 15⟩, "000000000000000000000000", 2⟩
      (by decide)).2 "000000000000000000000000" (by decide) rfl⟩

/-- C4: In every storage state reachable by the four operations, no two item
records share a name; consequently, for every valid input, creating an item
and then listing items yields exactly one item with that name (namely the one
just created). -/
theorem C4_unique_names (s : DB) (hr : Reachable s) (i : Item) (out : ItemOut) (s' : DB)
    (hc : create_item s i = (Except.ok out, s')) :
    ItemNamesUnique s ∧ ItemNamesUnique s' ∧
    (list_items s').filter (fun o => o.name == i.name) = [out] := by
  have hinv := reachable_dbInv hr
  obtain ⟨hv, hfind, hs, hout⟩ := create_item_ok hinv.2 hc
  have hinv' : DbInv s' := by
    have h2 := dbInv_create_item s i hinv
    rwa [congrArg Prod.snd hc] at h2
  refine ⟨hinv.1, hinv'.1, ?_⟩
  subst hs
  subst hout
  unfold list_items insertItem
  simp only [List.map_append, List.filter_append, List.map_cons, List.map_nil]
  have hold : (s.items.map serialize_item).filter (fun o => o.name == i.name) = [] := by
    rw [List.filter_eq_nil_iff]
    intro o ho
    obtain ⟨d, hd, hdo⟩ := List.mem_map.mp ho
    have hne := findItemByName_none hfind d hd
    rw [← hdo]
    simpa [serialize_item] using hne
  rw [hold]
  simp [serialize_item]

/-- Witness for C4 at the empty store and a concrete item. -/
theorem C4_witness :
    ItemNamesUnique DB.empty ∧ ItemNamesUnique sChicken ∧
    (list_items sChicken).filter (fun o => o.name == itemReq.name) =
      [⟨"000000000000000000000000", "Chicken", "gm", 3⟩] :=
  C4_unique_names DB.empty Reachable.empty itemReq
    ⟨"000000000000000000000000", "Chicken", "gm", 3⟩ sChicken rfl

/-- C5 counterexample: a duplicate-name request whose protein_per_unit is 0 is
rejected by schema validation (the pydantic layer) rather than with the
Conflict error, so the Conflict failure is not unconditional in the other
field values. -/
theorem C5_counterexample :
    (create_item dbItemA ⟨"a", "g", 0⟩).1 ≠
      Except.error (ApiError.httpError 400 "Item with this name already exists") ∧
    (create_item dbItemA ⟨"a", "g", 0⟩).1 =
      Except.error (ApiError.validation "Input should be greater than 0") := by
  constructor
  · intro h
    have h2 : ApiError.validation "Input should be greater than 0" =
        ApiError.httpError 400 "Item with this name already exists" := Except.error.inj h
    exact ApiError.noConfusion h2
  · rfl

/-- C5 (amended): for every item-creation request that passes schema
validation and whose name equals the name of an already-stored item, the
operation fails with the Conflict error (HTTP 400), regardless of the
request's unit and protein_per_unit values, and the store is unchanged. -/
theorem C5_duplicate_name_conflict (s : DB) (i : Item) (hv : i.schemaValid = true)
    (d : ItemDoc) (hd : findItemByName s i.name = some d) :
    create_item s i = (Except.error (ApiError.httpError 400 "Item with this name already exists"), s) := by
  unfold create_item
  simp [hv, hd]

/-- Witness for C5 (amended) at a concrete duplicate creation. -/
theorem C5_witness :
    create_item dbItemA ⟨"a", "x", 5⟩ =
      (Except.error (ApiError.httpError 400 "Item with this name already exists"), dbItemA) :=
  C5_duplicate_name_conflict dbItemA ⟨"a", "x", 5⟩ (by decide)
    ⟨"000000000000000000000000", "a", "g", 3⟩ rfl

/-- C6 counterexample: an item-creation request with empty name and empty unit
is accepted (the schemas place no non-emptiness constraint on the string
fields), contradicting the claim that such input is rejected with a
validation error. -/
theorem C6_counterexample :
    (create_item DB.empty ⟨"", "", 3⟩).1 =
      Except.ok ⟨"000000000000000000000000", "", "", 3⟩ := rfl

/-- C6 (amended): the item-creation operation validates only
protein_per_unit > 0 — any request with protein_per_unit ≤ 0 is rejected with
a validation error before any storage call, leaving the store unchanged, while
name and unit are unconstrained strings (empty strings are accepted, as the
counterexample shows). -/
theorem C6_validation (s : DB) (i : Item) (h : ¬ 0 < i.protein_per_unit) :
    create_item s i = (Except.error (ApiError.validation "Input should be greater than 0"), s) := by
  have hv : i.schemaValid = false := by
    unfold Item.schemaValid
    exact decide_eq_false h
  unfold create_item
  simp [hv]

/-- Witness for C6 (amended) at a concrete invalid request. -/
theorem C6_witness :
    create_item DB.empty ⟨"x", "g", 0⟩ =
      (Except.error (ApiError.validation "Input should be greater than 0"), DB.empty) :=
  C6_validation DB.empty ⟨"x", "g", 0⟩ (by decide)

/-- C7: For every date query string that does not parse as a valid YYYY-MM-DD
calendar date, the list-consumptions operation fails with a 400 error and
returns no partial results (the error is the entire response). -/
theorem C7_invalid_date (s : DB) (D : String) (h : parseIsoDate D = none) :
    list_consumptions s D =
      Except.error (ApiError.httpError 400 "Invalid date format. Use YYYY-MM-DD") := by
  unfold list_consumptions
  simp only [h]

/-- Witness for C7 at a concrete malformed date string. -/
theorem C7_witness :
    list_consumptions DB.empty "not-a-date" =
      Except.error (ApiError.httpError 400 "Invalid date format. Use YYYY-MM-DD") :=
  C7_invalid_date DB.empty "not-a-date" (by decide)

/-- C8: Every consumption record is stored with its date as the ISO-8601
string of the request's date; the list-consumptions operation for a valid
query string D returns exactly the stored records whose date field
string-equals D (compared by identifier); hence a successfully created
consumption appears in the listing for its date's ISO string. -/
theorem C8_date_roundtrip (s : DB) (e : Consumption) (out : ConsumptionOut) (s' : DB)
    (hr : Reachable s) (hc : create_consumption s e = (Except.ok out, s')) :
    ∃ doc, s'.consumptions = s.consumptions ++ [doc] ∧
      doc.date = e.date.isoformat ∧ doc.id = out.id ∧
      (∀ (t : DB) (D : String) (pd : PyDate), parseIsoDate D = some pd →
        ∃ res, list_consumptions t D = Except.ok res ∧
          res.entries.map ConsumptionOut.id = (findConsumptionsByDate t D).map ConsumptionDoc.id) ∧
      ∃ res, list_consumptions s' e.date.isoformat = Except.ok res ∧
        out.id ∈ res.entries.map ConsumptionOut.id := by
  obtain ⟨nid, item_doc, hv, hoid, hitem, hcons, hitems, hout⟩ :=
    create_consumption_ok (reachable_dbInv hr).2 hc
  have hdv : e.date.isValid = true := by
    have h2 := hv
    simp only [Consumption.schemaValid, Bool.and_eq_true] at h2
    exact h2.1
  have hpd : parseIsoDate e.date.isoformat = some e.date := parse_isoformat e.date hdv
  refine ⟨_, hcons, rfl, ?_, ?_, ?_⟩
  · rw [hout]
  · intro t D pd hp
    obtain ⟨res, hok, _, _, hids⟩ := list_consumptions_spec t D pd hp
    exact ⟨res, hok, hids⟩
  · obtain ⟨res, hok, _, _, hids⟩ := list_consumptions_spec s' e.date.isoformat e.date hpd
    refine ⟨res, hok, ?_⟩
    rw [hids, hout]
    apply List.mem_map.mpr
    refine ⟨⟨genId s.nextId, e.date.isoformat, e.item_id, item_doc.name, item_doc.unit,
      e.quantity, item_doc.protein_per_unit, item_doc.protein_per_unit * e.quantity⟩, ?_, rfl⟩
    unfold findConsumptionsByDate
    rw [hcons]
    apply List.mem_filter.mpr
    exact ⟨by simp, by simp⟩

/-- Witness for C8 at a concrete creation followed by a listing. -/
theorem C8_witness :
    ∃ doc, sAfterCons.consumptions = sChicken.consumptions ++ [doc] ∧
      doc.date = consReq.date.isoformat ∧ doc.id = consOutExpected.id ∧
      (∀ (t : DB) (D : String) (pd : PyDate), parseIsoDate D = some pd →
        ∃ res, list_consumptions t D = Except.ok res ∧
          res.entries.map ConsumptionOut.id = (findConsumptionsByDate t D).map ConsumptionDoc.id) ∧
      ∃ res, list_consumptions sAfterCons consReq.date.isoformat = Except.ok res ∧
        consOutExpected.id ∈ res.entries.map ConsumptionOut.id :=
  C8_date_roundtrip sChicken consReq consOutExpected sAfterCons
    (Reachable.createItem DB.empty itemReq Reachable.empty) rfl

/-- C9 (implicit): whenever item creation fails with the duplicate-name
Conflict error, the storage state is completely unchanged — the duplicate
check happens before the insert, so no item record is written. -/
theorem C9_conflict_state_unchanged (s : DB) (i : Item)
    (h : (create_item s i).1 =
      Except.error (ApiError.httpError 400 "Item with this name already exists")) :
    (create_item s i).2 = s := by
  unfold create_item at h ⊢
  by_cases hv : i.schemaValid = true
  · simp only [hv, if_true] at h ⊢
    cases hfind : findItemByName s i.name with
    | some d => simp only [hfind]
    | none =>
        simp only [hfind] at h
        cases hre : findItemById (insertItem s i.name i.unit i.protein_per_unit).2
            (insertItem s i.name i.unit i.protein_per_unit).1 with
        | some doc => rw [hre] at h; simp at h
        | none => rw [hre] at h; simp at h
  · rw [Bool.not_eq_true] at hv
    simp [hv] at h

/-- Witness for C9 at a concrete conflicting creation. -/
theorem C9_witness : (create_item dbItemA ⟨"a", "x", 5⟩).2 = dbItemA :=
  C9_conflict_state_unchanged dbItemA ⟨"a", "x", 5⟩ rfl

/-- C10 (implicit): the duplicate-name check uses exact string equality — it
is case-sensitive, so creating an item named "chicken" succeeds even though an
item named "Chicken" exists, yielding two distinct items whose names differ
only by case. -/
theorem C10_case_sensitive_duplicate_check :
    (create_item sChicken ⟨"chicken", "gm", 3⟩).1 =
      Except.ok ⟨"000000000000000000000001", "chicken", "gm", 3⟩ ∧
    (create_item sChicken ⟨"chicken", "gm", 3⟩).2.items.map ItemDoc.name =
      ["Chicken", "chicken"] :=
  ⟨rfl, rfl⟩
